import Mathlib

/-!
Verification development for the brand-reputation multi-agent system.

Shallow embedding of the decision/risk/alerting core of the repository:
* the response-quality evaluator (`ResponseQualityTool._run`),
* the risk scorer (`IntelligentResponseAgent._calculate_comprehensive_risk_score`
  and `_analyze_content_risk`),
* the approval policy (`IntelligentResponseAgent._make_autonomous_approval_decision`,
  `_make_contextual_risk_decision`),
* the alert rule engine (`AlertManagementAgent.process_task`,
  `_check_volume_spike`, `_check_sentiment_deterioration`),
* the workflow router (`LangGraphAutonomousOrchestrator._route_after_data_collection`),
* the bounded agent mailbox (`LangChainBaseAgent.message_queue` / `receive_message`),
* the incremental running-average bookkeeping
  (`LangChainOrchestrator._update_orchestration_metrics`,
  `IntelligentResponseAgent._update_response_metrics`).

Python floats are modelled by exact rationals (`ℚ`); Python dict-based records
become structures; fallible steps become `Except String`; string constants that
act as enum tags become inductive types.
-/

/-- Python substring test `pat in s` (both already lower-cased by callers). -/
def containsSub (s pat : String) : Bool :=
  decide (pat.data <:+: s.data)

/-- Sentiment labels carried on analyzed items / mentions. -/
inductive Sentiment where
  | positive
  | negative
  | neutral
deriving DecidableEq, Repr

/-- Engagement counters of a mention (`engagement_metrics` dict). -/
structure EngagementMetrics where
  likes : ℕ
  retweets : ℕ
  shares : ℕ
deriving DecidableEq, Repr

/-- A mention as consumed by the risk scorer: content text, sentiment label,
engagement counters and the `crisis_indicators.crisis_detected` flag. -/
structure Mention where
  content : String
  sentiment : Sentiment
  engagement : EngagementMetrics
  crisis_detected : Bool
deriving DecidableEq, Repr

/-- `settings.AUTO_RESPONSE_RISK_THRESHOLD` (config.py, default 0.3). -/
def AUTO_RESPONSE_RISK_THRESHOLD : ℚ := 3/10

/-- `settings.HUMAN_REVIEW_RISK_THRESHOLD` (config.py, default 0.7). -/
def HUMAN_REVIEW_RISK_THRESHOLD : ℚ := 7/10

/-- `settings.VOLUME_SPIKE_MULTIPLIER` (config.py, default 3.0). -/
def VOLUME_SPIKE_MULTIPLIER : ℚ := 3

/-! ## Response quality evaluator (`ResponseQualityTool._run`) -/

/-- `positive_indicators` word list in `ResponseQualityTool._run`. -/
def positive_indicators : List String :=
  ["thank", "appreciate", "help", "sorry", "understand", "glad", "happy"]

/-- `negative_indicators` word list in `ResponseQualityTool._run`. -/
def negative_indicators : List String :=
  ["no", "can't", "won't", "impossible", "never"]

/-- Unprofessional-language word list in `ResponseQualityTool._run`. -/
def unprofessional_words : List String :=
  ["damn", "hell", "stupid", "ridiculous"]

/-- `action_words` list in `ResponseQualityTool._run`. -/
def action_words : List String :=
  ["contact", "visit", "email", "call", "dm", "message", "support"]

/-- The `quality_score` accumulated by `ResponseQualityTool._run`:
0.2 length bonus, 0.3 tone bonus, 0.2 professional-language bonus,
0.1 brand-mention bonus, 0.2 call-to-action bonus. -/
def quality_score (response brand_name : String) : ℚ :=
  let rl := response.toLower
  let lengthBonus : ℚ := if 10 ≤ response.length ∧ response.length ≤ 280 then 2/10 else 0
  let positive_count := (positive_indicators.filter (fun w => containsSub rl w)).length
  let negative_count := (negative_indicators.filter (fun w => containsSub rl w)).length
  let toneBonus : ℚ := if negative_count < positive_count then 3/10 else 0
  let professionalBonus : ℚ :=
    if unprofessional_words.any (fun w => containsSub rl w) then 0 else 2/10
  let brandBonus : ℚ :=
    if brand_name ≠ (String.mk []) ∧ containsSub rl brand_name.toLower then 1/10 else 0
  let actionBonus : ℚ := if action_words.any (fun w => containsSub rl w) then 2/10 else 0
  lengthBonus + toneBonus + professionalBonus + brandBonus + actionBonus

/-! ## Risk scorer -/

/-- `high_risk_topics` vocabulary in `_analyze_content_risk`. -/
def high_risk_topics : List String :=
  ["lawsuit", "legal", "court", "sue", "attorney", "lawyer",
   "discrimination", "harassment", "bias", "racist", "sexist",
   "medical", "health", "diagnosis", "treatment", "medication",
   "financial", "investment", "stock", "price", "earnings"]

/-- `commitment_words` list in `_analyze_content_risk`. -/
def commitment_words : List String :=
  ["guarantee", "promise", "will definitely", "absolutely will", "we ensure"]

/-- The raw keyword-hit score accumulated by `_analyze_content_risk` before the
`min(1.0, ·)` clamp: +0.1 per high-risk topic found in the response or the
mention content, +0.05 per commitment phrase in the response, +0.1 for a
response shorter than 20 characters, else +0.05 for one longer than 500. -/
def content_hit_score (response mention_content : String) : ℚ :=
  let rl := response.toLower
  let ml := mention_content.toLower
  let topicScore : ℚ :=
    (1/10) * ((high_risk_topics.filter (fun t => containsSub rl t || containsSub ml t)).length : ℚ)
  let commitScore : ℚ :=
    (1/20) * ((commitment_words.filter (fun w => containsSub rl w)).length : ℚ)
  let lengthScore : ℚ :=
    if response.length < 20 then 1/10 else if 500 < response.length then 1/20 else 0
  topicScore + commitScore + lengthScore

/-- `_analyze_content_risk`: the returned `risk_score`, clamped to at most 1. -/
def analyze_content_risk (response mention_content : String) : ℚ :=
  min 1 (content_hit_score response mention_content)

/-- The output record of `_calculate_comprehensive_risk_score`
(`component_risks` plus `overall_risk_score`). -/
structure RiskAnalysis where
  quality_risk : ℚ
  sentiment_risk : ℚ
  virality_risk : ℚ
  content_risk : ℚ
  crisis_risk : ℚ
  overall_risk_score : ℚ
deriving DecidableEq, Repr

/-- The high-engagement test used by both `_assess_urgency` and the virality
factor of the risk scorer: likes > 100 or retweets > 50 or shares > 25. -/
def high_engagement (e : EngagementMetrics) : Bool :=
  100 < e.likes || 50 < e.retweets || 25 < e.shares

/-- `_calculate_comprehensive_risk_score`: five weighted component risks summed
and clamped to [0,1]. -/
def calculate_comprehensive_risk_score
    (response : String) (mention : Mention) (qualityScore : ℚ) : RiskAnalysis :=
  let quality_risk : ℚ := (1 - qualityScore) * (3/10)
  let sentiment_risk : ℚ :=
    (match mention.sentiment with
     | .negative => 2/10
     | .positive => 5/100
     | .neutral => 1/10) * (25/100)
  let virality_risk : ℚ :=
    (if high_engagement mention.engagement then (3/10 : ℚ) else 1/10) * (2/10)
  let content_risk : ℚ := analyze_content_risk response mention.content * (15/100)
  let crisis_risk : ℚ := (if mention.crisis_detected then (4/10 : ℚ) else 5/100) * (1/10)
  let total := quality_risk + sentiment_risk + virality_risk + content_risk + crisis_risk
  { quality_risk := quality_risk
    sentiment_risk := sentiment_risk
    virality_risk := virality_risk
    content_risk := content_risk
    crisis_risk := crisis_risk
    overall_risk_score := min 1 (max 0 total) }

/-! ## Approval policy (`_make_autonomous_approval_decision`) -/

/-- Confidence tag attached to an approval decision. -/
inductive Confidence where
  | low
  | medium
  | high
deriving DecidableEq, Repr

/-- `approval_status` values produced by the policy. -/
inductive ApprovalStatus where
  | approved_auto
  | approved_contextual
  | pending_approval
deriving DecidableEq, Repr

/-- The fields of the decision dict that the fail-closed / threshold claims
are about. -/
structure ApprovalDecision where
  approval_status : ApprovalStatus
  requires_human_review : Bool
  confidence : Confidence
  autonomous_decision : Bool
deriving DecidableEq, Repr

/-- Result record of `_make_contextual_risk_decision`. -/
structure ContextualDecision where
  status : ApprovalStatus
  requires_review : Bool
deriving DecidableEq, Repr

/-- Platform tag of the mention, as used by the contextual decision. -/
inductive Platform where
  | twitter
  | linkedin
  | other
deriving DecidableEq, Repr

/-- Contextual signals read by `_make_contextual_risk_decision`:
platform, local hour, weekend flag and the brand `crisis_mode` flag. -/
structure ContextInputs where
  platform : Platform
  hour : ℕ
  isWeekend : Bool
  crisisMode : Bool
deriving DecidableEq, Repr

/-- `_make_contextual_risk_decision`: adjust the auto-approve threshold by
platform (+0.1 twitter, −0.1 linkedin), business hours (−0.05 inside 9–17 on a
weekday, +0.1 otherwise) and brand crisis mode (−0.2), then compare. -/
def make_contextual_risk_decision
    (ctx : ContextInputs) (overallRisk autoThreshold : ℚ) : ContextualDecision :=
  let platformBias : ℚ :=
    match ctx.platform with
    | .twitter => 1/10
    | .linkedin => -(1/10)
    | .other => 0
  let hoursBias : ℚ :=
    if 9 ≤ ctx.hour ∧ ctx.hour ≤ 17 ∧ ¬ctx.isWeekend then -(5/100) else 1/10
  let crisisBias : ℚ := if ctx.crisisMode then -(2/10) else 0
  let adjusted := autoThreshold + platformBias + hoursBias + crisisBias
  if overallRisk < adjusted then
    { status := .approved_contextual, requires_review := false }
  else
    { status := .pending_approval, requires_review := true }

/-- The body of `_make_autonomous_approval_decision` inside its `try` block.
Fallible internal steps are modelled as `Except String` inputs: `riskResult`
is the outcome of `_calculate_comprehensive_risk_score`, and `alertResult`
is the outcome of the reviewer-suggestion / human-review-alert steps run only
on the high-risk branch. An `Except.error` anywhere models a raised
exception reaching the surrounding handler. -/
def approvalDecisionBody
    (riskResult : Except String RiskAnalysis) (alertResult : Except String Unit)
    (ctx : ContextInputs) (autoThreshold humanThreshold : ℚ) :
    Except String ApprovalDecision :=
  match riskResult with
  | .error e => .error e
  | .ok ra =>
    if ra.overall_risk_score < autoThreshold then
      .ok { approval_status := .approved_auto, requires_human_review := false,
            confidence := .high, autonomous_decision := true }
    else if humanThreshold < ra.overall_risk_score then
      match alertResult with
      | .error e => .error e
      | .ok _ =>
        .ok { approval_status := .pending_approval, requires_human_review := true,
              confidence := .high, autonomous_decision := true }
    else
      let cd := make_contextual_risk_decision ctx ra.overall_risk_score autoThreshold
      .ok { approval_status := cd.status, requires_human_review := cd.requires_review,
            confidence := .medium, autonomous_decision := true }

/-- The fail-closed fallback decision built in the `except` handler of
`_make_autonomous_approval_decision`. -/
def failClosedDecision : ApprovalDecision :=
  { approval_status := .pending_approval, requires_human_review := true,
    confidence := .low, autonomous_decision := false }

/-- `_make_autonomous_approval_decision`: run the body; any internal exception
is caught and converted into the fail-closed fallback. -/
def make_autonomous_approval_decision
    (riskResult : Except String RiskAnalysis) (alertResult : Except String Unit)
    (ctx : ContextInputs) (autoThreshold humanThreshold : ℚ) : ApprovalDecision :=
  match approvalDecisionBody riskResult alertResult ctx autoThreshold humanThreshold with
  | .ok d => d
  | .error _ => failClosedDecision

/-! ## Alert rule engine (`AlertManagementAgent`) -/

/-- Alert severity tags. -/
inductive Severity where
  | low
  | medium
  | high
  | critical
deriving DecidableEq, Repr

/-- A timestamped volume observation stored in the
`historical_data[f"{brand_id}_{platform}"]` window. -/
structure VolEntry where
  volume : ℕ
  timestamp : ℚ
deriving DecidableEq, Repr

/-- A timestamped negative-sentiment-ratio observation stored in the
`historical_data[f"{brand_id}_{platform}_sentiment"]` window. -/
structure SentEntry where
  negative_ratio : ℚ
  timestamp : ℚ
deriving DecidableEq, Repr

/-- The volume-spike alert payload (`_check_volume_spike`). -/
structure VolumeAlert where
  severity : Severity
  current_volume : ℕ
  average_volume : ℚ
  spike_factor : ℚ
deriving DecidableEq, Repr

/-- The sentiment-deterioration alert payload (`_check_sentiment_deterioration`). -/
structure DeteriorationAlert where
  severity : Severity
  current_negative_ratio : ℚ
  historical_average : ℚ
  deterioration : ℚ
deriving DecidableEq, Repr

/-- 7-day retention pruning of a volume window: keep entries with
`timestamp > now - 7*24*60*60`. -/
def pruneVolume (l : List VolEntry) (now : ℚ) : List VolEntry :=
  l.filter (fun e => now - 7 * 24 * 60 * 60 < e.timestamp)

/-- 24-hour retention pruning of a sentiment window: keep entries with
`timestamp > now - 24*60*60`. -/
def pruneSentiment (l : List SentEntry) (now : ℚ) : List SentEntry :=
  l.filter (fun e => now - 24 * 60 * 60 < e.timestamp)

/-- `_check_volume_spike`: append the current batch size to the window, prune
to 7 days, and with ≥ 10 samples compare the current volume against the
windowed mean times `VOLUME_SPIKE_MULTIPLIER`. Returns the updated window and
the alert, if any. -/
def check_volume_spike (hist : List VolEntry) (current_volume : ℕ) (now : ℚ) :
    List VolEntry × Option VolumeAlert :=
  let h := pruneVolume (hist ++ [{ volume := current_volume, timestamp := now }]) now
  if 10 ≤ h.length then
    let avg : ℚ := (h.map (fun e => (e.volume : ℚ))).sum / (h.length : ℚ)
    if avg * VOLUME_SPIKE_MULTIPLIER < (current_volume : ℚ) then
      let spike : ℚ := (current_volume : ℚ) / avg
      let sev : Severity := if 5 < spike then .critical else if 3 < spike then .high else .medium
      (h, some { severity := sev, current_volume := current_volume,
                 average_volume := avg, spike_factor := spike })
    else (h, none)
  else (h, none)

/-- Negative ratio of a batch: negatives / total. -/
def negRatio (data : List Sentiment) : ℚ :=
  ((data.filter (fun s => s = .negative)).length : ℚ) / (data.length : ℚ)

/-- `_check_sentiment_deterioration`: on a nonempty batch, append the current
negative ratio to the window, prune to 24 hours, and with ≥ 5 samples compare
the current ratio against the mean of all window entries except the last
(the one just appended). An empty batch returns immediately, leaving the
window untouched. Returns the updated window and the alert, if any. -/
def check_sentiment_deterioration
    (window : List SentEntry) (data : List Sentiment) (now : ℚ) :
    List SentEntry × Option DeteriorationAlert :=
  if data.isEmpty then (window, none)
  else
    let r := negRatio data
    let w := pruneSentiment (window ++ [{ negative_ratio := r, timestamp := now }]) now
    if 5 ≤ w.length then
      let avg : ℚ := (w.dropLast.map (fun e => e.negative_ratio)).sum / ((w.length : ℚ) - 1)
      let deterioration := r - avg
      if 3/10 < deterioration then
        let sev : Severity := if 1/2 < deterioration then .high else .medium
        (w, some { severity := sev, current_negative_ratio := r,
                   historical_average := avg, deterioration := deterioration })
      else (w, none)
    else (w, none)

/-- Status tag of a `process_task` result dict. -/
inductive TaskStatus where
  | success
  | error
deriving DecidableEq, Repr

/-- The part of the `AlertManagementAgent.process_task` result dict relevant to
rule isolation: the status, the returned alerts (abstract payloads) and the
error message on the error path. -/
structure TaskResult (α : Type) where
  status : TaskStatus
  alerts : List α
  message : Option String
deriving DecidableEq, Repr

/-- `AlertManagementAgent.process_task`: the four rule invocations run
sequentially inside one `try` block, their alert lists concatenated; a single
`except` handler around the whole body converts any raised exception into an
error result carrying the message and no alerts. Each rule outcome is modelled
as an `Except String (List α)`. -/
def process_task (r1 r2 r3 r4 : Except String (List α)) : TaskResult α :=
  match (do
    let a1 ← r1
    let a2 ← r2
    let a3 ← r3
    let a4 ← r4
    pure (a1 ++ a2 ++ a3 ++ a4) : Except String (List α)) with
  | .ok alerts => { status := .success, alerts := alerts, message := none }
  | .error e => { status := .error, alerts := [], message := some e }

/-! ## Workflow router (`_route_after_data_collection`) -/

/-- The route labels returned after the data-collection step. -/
inductive Route where
  | retry_collection
  | abort
  | analyze_sentiment
deriving DecidableEq, Repr

/-- The slice of `AgentWorkflowState` read by `_route_after_data_collection`:
whether `"collect_data"` is in `failed_steps`, the
`context["data_collection_retries"]` counter and the number of collected
mentions. -/
structure RouteState where
  collectDataFailed : Bool
  retries : ℕ
  mentionCount : ℕ
deriving DecidableEq, Repr

/-- `_route_after_data_collection`: on failure retry while the counter is
below 2 (incrementing it in the workflow context), abort at the cap; on
success abort when zero mentions were collected, else continue to sentiment
analysis. Returns the route and the updated retry counter. -/
def route_after_data_collection (s : RouteState) : Route × ℕ :=
  if s.collectDataFailed then
    if s.retries < 2 then (.retry_collection, s.retries + 1)
    else (.abort, s.retries)
  else if 0 < s.mentionCount then (.analyze_sentiment, s.retries)
  else (.abort, s.retries)

/-! ## Bounded agent mailbox (`LangChainBaseAgent`) -/

/-- The worker inbox: `asyncio.Queue(maxsize=1000)` as a list plus capacity. -/
structure MessageQueue (α : Type) where
  items : List α
  maxsize : ℕ
deriving DecidableEq, Repr

/-- The queue as constructed in `LangChainBaseAgent.__init__`. -/
def newMessageQueue (α : Type) : MessageQueue α :=
  { items := [], maxsize := 1000 }

/-- Observable outcome of delivering one message to the inbox. `enqueued`:
the put completed immediately with the updated queue. `blocked`: the queue was
full and `asyncio.Queue.put` suspended until a consumer frees space.
`rejected`: the message was refused and dropped (no code path produces this;
it exists to state the spec's claimed overflow behaviour). -/
inductive PutOutcome (α : Type) where
  | enqueued (q : MessageQueue α)
  | blocked
  | rejected
deriving DecidableEq, Repr

/-- `LangChainBaseAgent.receive_message`: `await self.message_queue.put(message)`.
With space available the message is appended; on a full queue the put
suspends (blocks) — there is no rejection branch and no overflow log. -/
def receive_message (q : MessageQueue α) (m : α) : PutOutcome α :=
  if q.items.length < q.maxsize then
    .enqueued { items := q.items ++ [m], maxsize := q.maxsize }
  else .blocked

/-! ## Incremental running averages (`_update_orchestration_metrics`,
`_update_response_metrics`) -/

/-- One tracked running-average metric: the observation count (incremented
first, like `total_tasks` / `total_responses_generated`) and the running
average. -/
structure RunningMetric where
  total : ℕ
  avg : ℚ
deriving DecidableEq, Repr

/-- One bookkeeping update: increment the count, then
`newAvg = (oldAvg * (total - 1) + sample) / total` with the incremented
count, exactly as in `_update_orchestration_metrics` and
`_update_response_metrics`. -/
def update_running_metric (m : RunningMetric) (sample : ℚ) : RunningMetric :=
  let total := m.total + 1
  { total := total, avg := (m.avg * ((total : ℚ) - 1) + sample) / (total : ℚ) }

/-- The metric that results from folding the incremental update over a full
task history, starting from count 0 and average 0.0. -/
def metricOfHistory (samples : List ℚ) : RunningMetric :=
  samples.foldl update_running_metric { total := 0, avg := 0 }

/-- Modelled from the spec: the naive recompute-from-full-history average the
spec compares the incremental bookkeeping against (`newAvg` must equal the
arithmetic mean of all samples observed so far). -/
def naiveMean (samples : List ℚ) : ℚ :=
  samples.sum / (samples.length : ℚ)

/-- Sample exception message used by concrete witnesses. -/
def sampleError : String := "internal step raised"

/-- C2: every risk assessment has `overall_risk_score` in [0,1], equal to the
[0,1]-clamped sum of the five fixed-weight component risks — quality
(1−qualityScore)×0.30, sentiment base×0.25 with base {negative:0.2,
neutral:0.1, positive:0.05}, virality (0.3 if high engagement else 0.1)×0.20,
content min(1, keyword-hit-score)×0.15, crisis (0.4 if crisis detected else
0.05)×0.10 — so recomputing the total from the reported component risks
reproduces `overall_risk_score`. -/
theorem risk_score_weighted_sum_clamped
    (response : String) (mention : Mention) (qualityScore : ℚ) :
    0 ≤ (calculate_comprehensive_risk_score response mention qualityScore).overall_risk_score ∧
    (calculate_comprehensive_risk_score response mention qualityScore).overall_risk_score ≤ 1 ∧
    (calculate_comprehensive_risk_score response mention qualityScore).overall_risk_score =
      min 1 (max 0
        ((calculate_comprehensive_risk_score response mention qualityScore).quality_risk +
         (calculate_comprehensive_risk_score response mention qualityScore).sentiment_risk +
         (calculate_comprehensive_risk_score response mention qualityScore).virality_risk +
         (calculate_comprehensive_risk_score response mention qualityScore).content_risk +
         (calculate_comprehensive_risk_score response mention qualityScore).crisis_risk)) ∧
    (calculate_comprehensive_risk_score response mention qualityScore).quality_risk =
      (1 - qualityScore) * (3/10) ∧
    (calculate_comprehensive_risk_score response mention qualityScore).sentiment_risk =
      (match mention.sentiment with
       | .negative => (2/10 : ℚ)
       | .positive => 5/100
       | .neutral => 1/10) * (25/100) ∧
    (calculate_comprehensive_risk_score response mention qualityScore).virality_risk =
      (if high_engagement mention.engagement then (3/10 : ℚ) else 1/10) * (2/10) ∧
    (calculate_comprehensive_risk_score response mention qualityScore).content_risk =
      min 1 (content_hit_score response mention.content) * (15/100) ∧
    (calculate_comprehensive_risk_score response mention qualityScore).crisis_risk =
      (if mention.crisis_detected then (4/10 : ℚ) else 5/100) * (1/10) := by
  refine ⟨?_, ?_, rfl, rfl, rfl, rfl, rfl, rfl⟩
  · exact le_min (by norm_num) (le_max_left 0 _)
  · exact min_le_left 1 _

/-- A sum of five conditional bonuses (third one inverted, as in the
professional-language check) is a sum of Boolean-selected bonuses. -/
lemma sum_five_ites_subset (c1 c2 c3 c4 c5 : Prop)
    [Decidable c1] [Decidable c2] [Decidable c3] [Decidable c4] [Decidable c5]
    (v1 v2 v3 v4 v5 : ℚ) :
    ∃ b1 b2 b3 b4 b5 : Bool,
      ((if c1 then v1 else 0) + (if c2 then v2 else 0) + (if c3 then 0 else v3) +
        (if c4 then v4 else 0) + (if c5 then v5 else 0)) =
      (cond b1 v1 0) + (cond b2 v2 0) + (cond b3 v3 0) +
        (cond b4 v4 0) + (cond b5 v5 0) := by
  refine ⟨decide c1, decide c2, !decide c3, decide c4, decide c5, ?_⟩
  by_cases h1 : c1 <;> by_cases h2 : c2 <;> by_cases h3 : c3 <;>
    by_cases h4 : c4 <;> by_cases h5 : c5 <;> simp [h1, h2, h3, h4, h5]

/-- C10: the response quality evaluator returns a `quality_score` that is the
sum of a subset of the fixed bonuses {0.2, 0.3, 0.2, 0.1, 0.2}, hence always
lies in [0,1]. -/
theorem quality_score_subset_of_bonuses (response brand_name : String) :
    (∃ b1 b2 b3 b4 b5 : Bool,
      quality_score response brand_name =
        (cond b1 (2/10 : ℚ) 0) + (cond b2 (3/10) 0) + (cond b3 (2/10) 0) +
        (cond b4 (1/10) 0) + (cond b5 (2/10) 0)) ∧
    0 ≤ quality_score response brand_name ∧ quality_score response brand_name ≤ 1 := by
  unfold quality_score
  refine ⟨?_, ?_, ?_⟩
  · dsimp only
    exact sum_five_ites_subset _ _ _ _ _ _ _ _ _ _
  · dsimp only
    split_ifs <;> norm_num
  · dsimp only
    split_ifs <;> norm_num

/-- C9: starting from count 0 and average 0.0, folding the incremental update
`newAvg = (oldAvg*(n-1) + sample)/n` over a task history gives, after every
task, exactly the arithmetic mean of all samples observed so far — the
O(1)-memory bookkeeping refines the naive recompute-from-history definition. -/
theorem incremental_average_equals_naive_mean (samples : List ℚ) :
    (metricOfHistory samples).total = samples.length ∧
    (metricOfHistory samples).avg = naiveMean samples := by
  induction samples using List.reverseRecOn with
  | nil => constructor <;> simp [metricOfHistory, naiveMean]
  | append_singleton l x ih =>
    obtain ⟨ht, ha⟩ := ih
    have hfold : metricOfHistory (l ++ [x]) =
        update_running_metric (metricOfHistory l) x := by
      simp [metricOfHistory, List.foldl_append]
    rcases eq_or_ne l [] with hl | hl
    · subst hl
      constructor <;> simp [metricOfHistory, update_running_metric, naiveMean]
    · have hn0 : l.length ≠ 0 := fun h => hl (List.length_eq_zero.mp h)
      have hn : ((l.length : ℚ)) ≠ 0 := Nat.cast_ne_zero.mpr hn0
      have hn1 : ((l.length : ℚ)) + 1 ≠ 0 := by positivity
      constructor
      · simp [hfold, update_running_metric, ht]
      · rw [hfold]
        simp only [update_running_metric, ht, ha, naiveMean, List.sum_append,
          List.length_append, List.sum_cons, List.sum_nil, List.length_cons,
          List.length_nil]
        push_cast
        field_simp

/-- C8: routing after `collect_data` — abort when the step failed with the
retry counter at its cap of 2, retry (incrementing the counter) when it
failed below the cap, abort on success with zero mentions, and continue to
`analyze_sentiment` otherwise. -/
theorem route_after_data_collection_correct (s : RouteState) :
    (s.collectDataFailed = true → s.retries = 2 →
        route_after_data_collection s = (.abort, s.retries)) ∧
    (s.collectDataFailed = true → s.retries < 2 →
        route_after_data_collection s = (.retry_collection, s.retries + 1)) ∧
    (s.collectDataFailed = false → s.mentionCount = 0 →
        route_after_data_collection s = (.abort, s.retries)) ∧
    (s.collectDataFailed = false → 0 < s.mentionCount →
        route_after_data_collection s = (.analyze_sentiment, s.retries)) := by
  refine ⟨fun h1 h2 => ?_, fun h1 h2 => ?_, fun h1 h2 => ?_, fun h1 h2 => ?_⟩ <;>
    simp [route_after_data_collection, h1, h2]

/-- Witness for C8: concrete states exercising all four routing branches. -/
theorem route_after_data_collection_correct_witness :
    route_after_data_collection { collectDataFailed := true, retries := 2, mentionCount := 0 } =
      (.abort, 2) ∧
    route_after_data_collection { collectDataFailed := true, retries := 1, mentionCount := 0 } =
      (.retry_collection, 2) ∧
    route_after_data_collection { collectDataFailed := false, retries := 0, mentionCount := 0 } =
      (.abort, 0) ∧
    route_after_data_collection { collectDataFailed := false, retries := 0, mentionCount := 4 } =
      (.analyze_sentiment, 0) :=
  ⟨(route_after_data_collection_correct _).1 rfl rfl,
   (route_after_data_collection_correct _).2.1 rfl (by norm_num),
   (route_after_data_collection_correct _).2.2.1 rfl rfl,
   (route_after_data_collection_correct _).2.2.2 rfl (by norm_num)⟩

/-- C1: fail-closed approval — whenever any internal step of the autonomous
approval decision raises (the body evaluates to an error, including a failed
risk-score computation), the returned decision is `pending_approval` with
`requires_human_review = true` and confidence low; the policy never fails
open. -/
theorem approval_fail_closed
    (riskResult : Except String RiskAnalysis) (alertResult : Except String Unit)
    (ctx : ContextInputs) (autoT humanT : ℚ) (e : String)
    (h : approvalDecisionBody riskResult alertResult ctx autoT humanT = .error e) :
    (make_autonomous_approval_decision riskResult alertResult ctx autoT humanT).approval_status
        = .pending_approval ∧
    (make_autonomous_approval_decision riskResult alertResult ctx autoT humanT).requires_human_review
        = true ∧
    (make_autonomous_approval_decision riskResult alertResult ctx autoT humanT).confidence
        = .low := by
  unfold make_autonomous_approval_decision
  rw [h]
  exact ⟨rfl, rfl, rfl⟩

/-- Witness for C1: a raised risk-score computation yields the fail-closed
decision. -/
theorem approval_fail_closed_witness :
    approvalDecisionBody (.error sampleError) (.ok ())
        { platform := .other, hour := 12, isWeekend := false, crisisMode := false }
        AUTO_RESPONSE_RISK_THRESHOLD HUMAN_REVIEW_RISK_THRESHOLD = .error sampleError ∧
    (make_autonomous_approval_decision (.error sampleError) (.ok ())
        { platform := .other, hour := 12, isWeekend := false, crisisMode := false }
        AUTO_RESPONSE_RISK_THRESHOLD HUMAN_REVIEW_RISK_THRESHOLD).approval_status
      = .pending_approval :=
  ⟨rfl, (approval_fail_closed (.error sampleError) (.ok ())
      { platform := .other, hour := 12, isWeekend := false, crisisMode := false }
      AUTO_RESPONSE_RISK_THRESHOLD HUMAN_REVIEW_RISK_THRESHOLD sampleError rfl).1⟩

/-- C3: threshold bands at the default thresholds 0.3 / 0.7 — risk strictly
below 0.3 auto-approves with no human review, risk strictly above 0.7 yields
`pending_approval` with human review (even if the review-alert step itself
raises, via the fail-closed handler), and a risk exactly at either boundary
falls through to the contextual middle band. -/
theorem approval_threshold_bands
    (ra : RiskAnalysis) (alertResult : Except String Unit) (ctx : ContextInputs) :
    (ra.overall_risk_score < AUTO_RESPONSE_RISK_THRESHOLD →
        make_autonomous_approval_decision (.ok ra) alertResult ctx
            AUTO_RESPONSE_RISK_THRESHOLD HUMAN_REVIEW_RISK_THRESHOLD =
          { approval_status := .approved_auto, requires_human_review := false,
            confidence := .high, autonomous_decision := true }) ∧
    (HUMAN_REVIEW_RISK_THRESHOLD < ra.overall_risk_score →
        (make_autonomous_approval_decision (.ok ra) alertResult ctx
            AUTO_RESPONSE_RISK_THRESHOLD HUMAN_REVIEW_RISK_THRESHOLD).approval_status
          = .pending_approval ∧
        (make_autonomous_approval_decision (.ok ra) alertResult ctx
            AUTO_RESPONSE_RISK_THRESHOLD HUMAN_REVIEW_RISK_THRESHOLD).requires_human_review
          = true) ∧
    (ra.overall_risk_score = AUTO_RESPONSE_RISK_THRESHOLD ∨
        ra.overall_risk_score = HUMAN_REVIEW_RISK_THRESHOLD →
        make_autonomous_approval_decision (.ok ra) alertResult ctx
            AUTO_RESPONSE_RISK_THRESHOLD HUMAN_REVIEW_RISK_THRESHOLD =
          { approval_status :=
              (make_contextual_risk_decision ctx ra.overall_risk_score
                AUTO_RESPONSE_RISK_THRESHOLD).status,
            requires_human_review :=
              (make_contextual_risk_decision ctx ra.overall_risk_score
                AUTO_RESPONSE_RISK_THRESHOLD).requires_review,
            confidence := .medium, autonomous_decision := true }) := by
  have hAH : AUTO_RESPONSE_RISK_THRESHOLD < HUMAN_REVIEW_RISK_THRESHOLD := by
    norm_num [AUTO_RESPONSE_RISK_THRESHOLD, HUMAN_REVIEW_RISK_THRESHOLD]
  refine ⟨fun h => ?_, fun h => ?_, fun h => ?_⟩
  · simp [make_autonomous_approval_decision, approvalDecisionBody, h]
  · have h1 : ¬ ra.overall_risk_score < AUTO_RESPONSE_RISK_THRESHOLD :=
      not_lt.mpr (le_of_lt (hAH.trans h))
    cases alertResult <;>
      simp [make_autonomous_approval_decision, approvalDecisionBody, h, h1,
        failClosedDecision]
  · have h1 : AUTO_RESPONSE_RISK_THRESHOLD ≤ ra.overall_risk_score := by
      rcases h with h | h <;> simp [h, hAH.le]
    have h2 : ra.overall_risk_score ≤ HUMAN_REVIEW_RISK_THRESHOLD := by
      rcases h with h | h <;> simp [h, hAH.le]
    simp [make_autonomous_approval_decision, approvalDecisionBody,
      not_lt.mpr h1, not_lt.mpr h2]

/-- Witness for C3: concrete risk analyses in the low band, the high band and
exactly at the 0.3 boundary. -/
theorem approval_threshold_bands_witness :
    (make_autonomous_approval_decision
        (.ok { quality_risk := 0, sentiment_risk := 0, virality_risk := 0,
               content_risk := 0, crisis_risk := 0, overall_risk_score := 1/10 })
        (.ok ()) { platform := .other, hour := 12, isWeekend := false, crisisMode := false }
        AUTO_RESPONSE_RISK_THRESHOLD HUMAN_REVIEW_RISK_THRESHOLD).approval_status
      = .approved_auto ∧
    (make_autonomous_approval_decision
        (.ok { quality_risk := 0, sentiment_risk := 0, virality_risk := 0,
               content_risk := 0, crisis_risk := 0, overall_risk_score := 9/10 })
        (.ok ()) { platform := .other, hour := 12, isWeekend := false, crisisMode := false }
        AUTO_RESPONSE_RISK_THRESHOLD HUMAN_REVIEW_RISK_THRESHOLD).approval_status
      = .pending_approval ∧
    (make_autonomous_approval_decision
        (.ok { quality_risk := 0, sentiment_risk := 0, virality_risk := 0,
               content_risk := 0, crisis_risk := 0, overall_risk_score := 3/10 })
        (.ok ()) { platform := .other, hour := 12, isWeekend := false, crisisMode := false }
        AUTO_RESPONSE_RISK_THRESHOLD HUMAN_REVIEW_RISK_THRESHOLD).confidence
      = .medium := by
  refine ⟨?_, ?_, ?_⟩
  · have := (approval_threshold_bands
      { quality_risk := 0, sentiment_risk := 0, virality_risk := 0,
        content_risk := 0, crisis_risk := 0, overall_risk_score := 1/10 }
      (.ok ()) { platform := .other, hour := 12, isWeekend := false, crisisMode := false }).1
      (by unfold AUTO_RESPONSE_RISK_THRESHOLD; norm_num)
    rw [this]
  · exact ((approval_threshold_bands
      { quality_risk := 0, sentiment_risk := 0, virality_risk := 0,
        content_risk := 0, crisis_risk := 0, overall_risk_score := 9/10 }
      (.ok ()) { platform := .other, hour := 12, isWeekend := false, crisisMode := false }).2.1
      (by unfold HUMAN_REVIEW_RISK_THRESHOLD; norm_num)).1
  · have := (approval_threshold_bands
      { quality_risk := 0, sentiment_risk := 0, virality_risk := 0,
        content_risk := 0, crisis_risk := 0, overall_risk_score := 3/10 }
      (.ok ()) { platform := .other, hour := 12, isWeekend := false, crisisMode := false }).2.2
      (Or.inl rfl)
    rw [this]

/-- Counterexample to C4: with one rule raising and another rule returning an
alert, `process_task` returns an error result with zero alerts — the other
rule's alert is not returned and the result is not a success. -/
theorem alert_rule_isolation_counterexample :
    (process_task (Except.error sampleError) (Except.ok [7])
        (Except.ok ([] : List ℕ)) (Except.ok [])).status = .error ∧
    (process_task (Except.error sampleError) (Except.ok [7])
        (Except.ok ([] : List ℕ)) (Except.ok [])).alerts = [] :=
  ⟨rfl, rfl⟩

/-- C4 (amended): the four alert rules share `process_task`'s single
try/except — if any rule raises, the whole cycle returns a `status = error`
result carrying that rule's message and zero alerts (alerts computed by the
other rules are discarded); only when all four rules succeed does the cycle
return success with the concatenated alerts. -/
theorem process_task_first_error_result {α : Type}
    (r1 r2 r3 r4 : Except String (List α)) :
    (∀ e, r1 = .error e →
        process_task r1 r2 r3 r4 = { status := .error, alerts := [], message := some e }) ∧
    (∀ a1 e, r1 = .ok a1 → r2 = .error e →
        process_task r1 r2 r3 r4 = { status := .error, alerts := [], message := some e }) ∧
    (∀ a1 a2 e, r1 = .ok a1 → r2 = .ok a2 → r3 = .error e →
        process_task r1 r2 r3 r4 = { status := .error, alerts := [], message := some e }) ∧
    (∀ a1 a2 a3 e, r1 = .ok a1 → r2 = .ok a2 → r3 = .ok a3 → r4 = .error e →
        process_task r1 r2 r3 r4 = { status := .error, alerts := [], message := some e }) ∧
    (∀ a1 a2 a3 a4, r1 = .ok a1 → r2 = .ok a2 → r3 = .ok a3 → r4 = .ok a4 →
        process_task r1 r2 r3 r4 =
          { status := .success, alerts := a1 ++ a2 ++ a3 ++ a4, message := none }) := by
  refine ⟨fun e h1 => ?_, fun a1 e h1 h2 => ?_, fun a1 a2 e h1 h2 h3 => ?_,
    fun a1 a2 a3 e h1 h2 h3 h4 => ?_, fun a1 a2 a3 a4 h1 h2 h3 h4 => ?_⟩ <;>
    subst_vars <;> rfl

/-- Witness for C4's amended claim: a concrete failing first rule and a
concrete all-success cycle. -/
theorem process_task_first_error_result_witness :
    process_task (Except.error sampleError) (Except.ok [7])
        (Except.ok ([] : List ℕ)) (Except.ok []) =
      { status := .error, alerts := [], message := some sampleError } ∧
    process_task (Except.ok [1]) (Except.ok [2]) (Except.ok ([] : List ℕ)) (Except.ok [3]) =
      { status := .success, alerts := [1, 2, 3], message := none } :=
  ⟨(process_task_first_error_result (Except.error sampleError) (Except.ok [7])
      (Except.ok ([] : List ℕ)) (Except.ok [])).1 sampleError rfl,
   (process_task_first_error_result (Except.ok [1]) (Except.ok [2])
      (Except.ok ([] : List ℕ)) (Except.ok [3])).2.2.2.2 [1] [2] [] [3] rfl rfl rfl rfl⟩

/-- Counterexample to C5: delivering a message to a full inbox does not reject
it — `receive_message` (an `asyncio.Queue.put` on a queue at its `maxsize`)
blocks, which is a different outcome from the claimed rejection. -/
theorem mailbox_overflow_counterexample :
    receive_message { items := List.replicate 1000 (0 : ℕ), maxsize := 1000 } 0 =
      .blocked ∧
    (PutOutcome.blocked : PutOutcome ℕ) ≠ .rejected := by
  constructor
  · have h : ¬ (List.replicate 1000 (0 : ℕ)).length < 1000 := by
      simp only [List.length_replicate, lt_self_iff_false, not_false_iff]
    simp only [receive_message, h, if_false]
  · intro h
    exact PutOutcome.noConfusion h

/-- C5 (amended): every worker inbox is created with capacity 1000, a message
delivered with space available is appended immediately, and a message
delivered to a full inbox causes the `put` to block (await) until space
frees — it is never rejected or logged. -/
theorem mailbox_bounded_blocking :
    (newMessageQueue ℕ).maxsize = 1000 ∧
    (∀ (q : MessageQueue ℕ) (m : ℕ), q.items.length < q.maxsize →
        receive_message q m = .enqueued { items := q.items ++ [m], maxsize := q.maxsize }) ∧
    (∀ (q : MessageQueue ℕ) (m : ℕ), q.maxsize ≤ q.items.length →
        receive_message q m = .blocked) := by
  refine ⟨rfl, fun q m h => ?_, fun q m h => ?_⟩
  · simp [receive_message, h]
  · simp [receive_message, not_lt.mpr h]

/-- Witness for C5's amended claim: a fresh queue accepts a message, a full
queue blocks. -/
theorem mailbox_bounded_blocking_witness :
    receive_message (newMessageQueue ℕ) 5 =
      .enqueued { items := [5], maxsize := 1000 } ∧
    receive_message { items := List.replicate 1000 (0 : ℕ), maxsize := 1000 } 5 =
      .blocked :=
  ⟨mailbox_bounded_blocking.2.1 (newMessageQueue ℕ) 5 (by simp [newMessageQueue]),
   mailbox_bounded_blocking.2.2 { items := List.replicate 1000 (0 : ℕ), maxsize := 1000 } 5
     (by simp only [List.length_replicate, le_refl])⟩

/-- Pruning after appending a fresh sample keeps the fresh sample (its
timestamp is `now`, inside any positive retention horizon) at the end. -/
lemma pruneSentiment_append (l : List SentEntry) (r now : ℚ) :
    pruneSentiment (l ++ [{ negative_ratio := r, timestamp := now }]) now =
      pruneSentiment l now ++ [{ negative_ratio := r, timestamp := now }] := by
  unfold pruneSentiment
  rw [List.filter_append]
  congr 1
  simp only [List.filter_cons, List.filter_nil, decide_eq_true_eq]
  rw [if_pos]
  simp only [sub_lt_self_iff]
  norm_num

/-- C6: on a nonempty batch, after appending the current negative ratio to the
24-hour window, if the pruned window holds at least 5 samples then the
historical mean is taken over all entries except the one just appended
(`dropLast` of the pruned window is exactly the pruned previous window), a
`sentiment_deterioration` alert is emitted iff (current ratio − historical
mean) exceeds 0.3, and its severity is high iff the difference exceeds 0.5,
medium otherwise. -/
theorem sentiment_deterioration_rule_correct
    (window : List SentEntry) (data : List Sentiment) (now : ℚ)
    (hd : data ≠ [])
    (w : List SentEntry)
    (hw : w = pruneSentiment
        (window ++ [{ negative_ratio := negRatio data, timestamp := now }]) now)
    (h5 : 5 ≤ w.length)
    (avg : ℚ)
    (havg : avg = (w.dropLast.map (fun e => e.negative_ratio)).sum / ((w.length : ℚ) - 1)) :
    w.dropLast = pruneSentiment window now ∧
    ((check_sentiment_deterioration window data now).2.isSome ↔
        3/10 < negRatio data - avg) ∧
    ∀ a, (check_sentiment_deterioration window data now).2 = some a →
      a.severity = (if 1/2 < negRatio data - avg then Severity.high else .medium) ∧
      a.current_negative_ratio = negRatio data ∧
      a.historical_average = avg ∧
      a.deterioration = negRatio data - avg := by
  have hde : data.isEmpty = false := by
    cases data with
    | nil => exact absurd rfl hd
    | cons x xs => rfl
  subst havg
  subst hw
  refine ⟨?_, ?_, ?_⟩
  · rw [pruneSentiment_append, List.dropLast_concat]
  · unfold check_sentiment_deterioration
    simp only [hde, Bool.false_eq_true, if_false]
    rw [if_pos h5]
    split_ifs with h3 hsev
    · dsimp only
      simp only [Option.isSome_some]
      exact iff_of_true trivial h3
    · dsimp only
      simp only [Option.isSome_some]
      exact iff_of_true trivial h3
    · dsimp only
      simp only [Option.isSome_none]
      exact iff_of_false (by simp) h3
  · intro a ha
    unfold check_sentiment_deterioration at ha
    simp only [hde, Bool.false_eq_true, if_false] at ha
    rw [if_pos h5] at ha
    split_ifs at ha with h3 hsev
    · dsimp only at ha
      injection ha with ha
      subst ha
      exact ⟨by rw [if_pos hsev], rfl, rfl, rfl⟩
    · dsimp only at ha
      injection ha with ha
      subst ha
      exact ⟨by rw [if_neg hsev], rfl, rfl, rfl⟩


/-- Witness for C6: four old window samples with ratio 0 plus a fully negative
batch produce a deterioration alert. -/
theorem sentiment_deterioration_rule_correct_witness :
    (check_sentiment_deterioration
        [{ negative_ratio := 0, timestamp := 1 }, { negative_ratio := 0, timestamp := 2 },
         { negative_ratio := 0, timestamp := 3 }, { negative_ratio := 0, timestamp := 4 }]
        [Sentiment.negative] 5).2.isSome = true := by
  have h := sentiment_deterioration_rule_correct
    [{ negative_ratio := 0, timestamp := 1 }, { negative_ratio := 0, timestamp := 2 },
     { negative_ratio := 0, timestamp := 3 }, { negative_ratio := 0, timestamp := 4 }]
    [Sentiment.negative] 5 (by simp)
    (pruneSentiment
      ([{ negative_ratio := 0, timestamp := 1 }, { negative_ratio := 0, timestamp := 2 },
        { negative_ratio := 0, timestamp := 3 }, { negative_ratio := 0, timestamp := 4 }] ++
       [{ negative_ratio := negRatio [Sentiment.negative], timestamp := 5 }]) 5)
    rfl
    (by norm_num [pruneSentiment, List.filter_cons, List.filter_nil])
    _ rfl
  refine h.2.1.mpr ?_
  norm_num [pruneSentiment, negRatio, List.filter_cons, List.filter_nil,
    List.dropLast, List.map_cons, List.map_nil, List.sum_cons, List.sum_nil]

/-- Counterexample to C7: an empty batch returns from the
sentiment-deterioration rule before pruning, so a stale entry (timestamp 0,
far older than 24 hours before `now = 200000`) survives the evaluation. -/
theorem sentiment_window_stale_after_empty_batch :
    (check_sentiment_deterioration [{ negative_ratio := 0, timestamp := 0 }] [] 200000).1 =
      [{ negative_ratio := 0, timestamp := 0 }] ∧
    ¬((200000 : ℚ) - 24 * 60 * 60 <
        ({ negative_ratio := 0, timestamp := 0 } : SentEntry).timestamp) := by
  constructor
  · rfl
  · norm_num

/-- C7 (amended): after every volume-spike evaluation the volume window holds
only entries from the last 7 days, and after every sentiment-deterioration
evaluation on a nonempty batch the sentiment window holds only entries from
the last 24 hours; an empty batch leaves the sentiment window untouched
(unpruned). -/
theorem window_retention_after_update :
    (∀ (hist : List VolEntry) (v : ℕ) (now : ℚ) (e : VolEntry),
        e ∈ (check_volume_spike hist v now).1 → now - 7 * 24 * 60 * 60 < e.timestamp) ∧
    (∀ (window : List SentEntry) (data : List Sentiment) (now : ℚ) (e : SentEntry),
        data ≠ [] → e ∈ (check_sentiment_deterioration window data now).1 →
        now - 24 * 60 * 60 < e.timestamp) := by
  constructor
  · intro hist v now e he
    have h1 : (check_volume_spike hist v now).1 =
        pruneVolume (hist ++ [{ volume := v, timestamp := now }]) now := by
      unfold check_volume_spike
      dsimp only
      split_ifs <;> rfl
    rw [h1] at he
    unfold pruneVolume at he
    rw [List.mem_filter] at he
    simpa using he.2
  · intro window data now e hd he
    have hde : data.isEmpty = false := by
      cases data with
      | nil => exact absurd rfl hd
      | cons x xs => rfl
    have h1 : (check_sentiment_deterioration window data now).1 =
        pruneSentiment
          (window ++ [{ negative_ratio := negRatio data, timestamp := now }]) now := by
      unfold check_sentiment_deterioration
      simp only [hde, Bool.false_eq_true, if_false]
      split_ifs <;> rfl
    rw [h1] at he
    unfold pruneSentiment at he
    rw [List.mem_filter] at he
    simpa using he.2

/-- Witness for C7's amended claim: concrete fresh entries survive concrete
evaluations and satisfy the retention bound. -/
theorem window_retention_after_update_witness :
    ((10 : ℚ) - 7 * 24 * 60 * 60 <
        ({ volume := 3, timestamp := 10 } : VolEntry).timestamp) ∧
    ((5 : ℚ) - 24 * 60 * 60 <
        ({ negative_ratio := 1, timestamp := 5 } : SentEntry).timestamp) := by
  constructor
  · exact window_retention_after_update.1 [] 3 10 { volume := 3, timestamp := 10 }
      (by norm_num [check_volume_spike, pruneVolume, List.filter_cons, List.filter_nil])
  · exact window_retention_after_update.2 [] [Sentiment.negative] 5
      { negative_ratio := 1, timestamp := 5 } (by simp)
      (by norm_num [check_sentiment_deterioration, pruneSentiment, negRatio,
        List.filter_cons, List.filter_nil])
